import Mathlib

/-
Verification of the shared authentication/admission core of the
Microservices-Golang repository: the JWT token lifecycle
(shared/utils/jwt.go), the Redis cache accessor (shared/database redis
wrapper), the rate-limiting middleware (shared/middleware/middleware.go)
and the dynamic partial-update statement builder of the user service.

Shallow embedding conventions:
  * Go errors are the inductive GoErr below; fmt.Errorf with a %w verb is
    the GoErr.wrap constructor (context message plus wrapped inner error).
  * time.Time instants and time.Duration values are integers (seconds);
    the impure time.Now() becomes an explicit now argument.
  * The HMAC signature of a token is idealised as the signing key itself
    carried on the token value (an ideal, collision-free MAC): verifying
    the signature is comparing the stored key with the manager secret.
-/

/-- Go error values: a plain message, or fmt.Errorf wrapping with context. -/
inductive GoErr where
  | msg (s : String)
  | wrap (context : String) (inner : GoErr)
deriving DecidableEq

/-- JWTClaims of shared/utils/jwt.go: the four custom fields plus the
registered claims that GenerateToken fills in. -/
structure JWTClaims where
  userID : String
  username : String
  email : String
  role : String
  expiresAt : Int
  issuedAt : Int
  notBefore : Int
  issuer : String
  subject : String
deriving DecidableEq

/-- JWTManager of shared/utils/jwt.go. -/
structure JWTManager where
  secretKey : String
  issuer : String
deriving DecidableEq

/-- A token string, abstracted: either undecodable garbage, or the signed
encoding of a claim set.  `key` is the key the token was signed with and
`algIsHMAC` records whether its header names an HMAC signing method
(GenerateToken always signs with HS256, so it always emits true). -/
inductive Token where
  | malformed (raw : String)
  | signed (claims : JWTClaims) (key : String) (algIsHMAC : Bool)
deriving DecidableEq

/-- GenerateToken (jwt.go lines 34-56): builds JWTClaims with
expires-at = now + expiration, issued-at = not-before = now, the manager
issuer and subject = userID, and signs with HS256 over the secret.
Signing can only fail on claim serialization, which the record model
excludes, so the result is total. -/
def GenerateToken (j : JWTManager) (userID username email role : String)
    (expiration now : Int) : Token :=
  .signed
    ⟨userID, username, email, role, now + expiration, now, now, j.issuer, userID⟩
    j.secretKey true

/-- Modelled from the spec: the parse step of the golang-jwt/v4 library that
ValidateToken invokes (jwt.ParseWithClaims), whose source is not part of
this repository.  Per the spec (section 4.1 and section 6): decoding fails on
malformed input; the keyfunc in jwt.go lines 60-65 rejects non-HMAC signing
methods; signature verification is idealised as equality of the signing
key with the manager secret; Expired means now > expires-at and
NotYetValid means now < not-before. -/
def libParse (secret : String) (now : Int) : Token → Except GoErr JWTClaims
  | .malformed _ => .error (.msg "token contains an invalid number of segments")
  | .signed c key algIsHMAC =>
    if algIsHMAC = false then .error (.msg "unexpected signing method")
    else if key ≠ secret then .error (.msg "signature is invalid")
    else if now > c.expiresAt then .error (.msg "token is expired")
    else if now < c.notBefore then .error (.msg "token is not valid yet")
    else .ok c

/-- ValidateToken (jwt.go lines 59-81): parses with the keyfunc and wraps
any parse failure as "failed to parse token: %w".  The subsequent
!token.Valid and claims-cast branches in the source are unreachable when
ParseWithClaims returns a nil error, so they add no cases here. -/
def ValidateToken (j : JWTManager) (tok : Token) (now : Int) :
    Except GoErr JWTClaims :=
  match libParse j.secretKey now tok with
  | .error e => .error (.wrap "failed to parse token" e)
  | .ok c => .ok c

/-- RefreshToken (jwt.go lines 84-92): validates the old token, wrapping a
validation failure as "invalid token for refresh: %w", and on success
re-issues via GenerateToken with the validated claim fields and the new
expiration. -/
def RefreshToken (j : JWTManager) (tok : Token) (newExpiration now : Int) :
    Except GoErr Token :=
  match ValidateToken j tok now with
  | .error e => .error (.wrap "invalid token for refresh" e)
  | .ok c => .ok (GenerateToken j c.userID c.username c.email c.role newExpiration now)

/-- IsTokenExpired (jwt.go lines 104-111): any validation failure counts as
expired; on success the check is claims.ExpiresAt.Time.Before(time.Now()),
a strict comparison expires-at < now. -/
def IsTokenExpired (j : JWTManager) (tok : Token) (now : Int) : Bool :=
  match ValidateToken j tok now with
  | .error _ => true
  | .ok c => decide (c.expiresAt < now)

/-- A reply of the Redis backend to a GET, as go-redis surfaces it: a value,
the redis.Nil sentinel for an absent key, or a transport/timeout failure. -/
inductive RedisReply where
  | found (v : String)
  | nilReply
  | failure (m : String)
deriving DecidableEq

/-- RedisClient.Get (redis wrapper lines 106-120): redis.Nil becomes the
error "key not found: <key>", any other failure becomes the wrapped error
"failed to get value: %w", and a found value is returned as is. -/
def redisGet (backend : String → RedisReply) (key : String) : Except GoErr String :=
  match backend key with
  | .found v => .ok v
  | .nilReply => .error (.msg ("key not found: " ++ key))
  | .failure m => .error (.wrap "failed to get value" (.msg m))

/-- A value passed to SetWithExpiration through the interface-typed
parameter: either a Go string (stored raw) or any other value (stored as
its JSON marshalling).  α abstracts the deserialized value type and
marshalJson abstracts encoding/json.Marshal. -/
inductive GoValue (α : Type) where
  | str (s : String)
  | other (v : α)

/-- SetWithExpiration (redis wrapper lines 79-103): a string value is stored
raw, without JSON marshalling; any other value is stored as its JSON text.
The key space is an association list from keys to the stored text; the
expiration bookkeeping is irrelevant to the properties proved here (all
reads happen within the TTL window) and is not tracked. -/
def setWithExpiration {α : Type} (marshalJson : α → String)
    (store : List (String × String)) (key : String) (value : GoValue α) :
    List (String × String) :=
  let data := match value with
    | .str v => v
    | .other v => marshalJson v
  (key, data) :: store

/-- The Redis backend view of an association-list key space. -/
def backendOf (store : List (String × String)) : String → RedisReply :=
  fun k =>
    match store.lookup k with
    | some v => .found v
    | none => .nilReply

/-- The observable outcome of one CacheWithCallback call: its returned
value or error, how many times the callback ran, whether a cache write was
attempted, and whether that write succeeded. -/
structure CacheCallOut (α : Type) where
  result : Except GoErr α
  callbackCalls : Nat
  setAttempted : Bool
  setSucceeded : Bool

/-- The miss path of CacheWithCallback (redis wrapper lines 218-230): call
the callback once; propagate its failure without touching the cache; on
success attempt the cache write, and return the computed data whether or
not that write succeeded (a failed write is only logged). -/
def cacheMissPath {α : Type} (cbRes : Except GoErr α) (setOk : Bool) :
    CacheCallOut α :=
  match cbRes with
  | .error e => ⟨.error e, 1, false, false⟩
  | .ok data => ⟨.ok data, 1, true, setOk⟩

/-- CacheWithCallback (redis wrapper lines 210-231): GetAndUnmarshal is
Get followed by json.Unmarshal, so a hit requires both a found key and a
successful deserialization; every other outcome takes the miss path.
getRes is the result of r.Get(key), unmarshal abstracts json.Unmarshal
into the interface-typed destination (none when the text is not valid
JSON), cbRes the callback outcome, and setOk whether the subsequent
SetWithExpiration round-trip succeeds. -/
def cacheWithCallback {α : Type} (getRes : Except GoErr String)
    (unmarshal : String → Option α) (cbRes : Except GoErr α) (setOk : Bool) :
    CacheCallOut α :=
  match getRes with
  | .ok s =>
    match unmarshal s with
    | some v => ⟨.ok v, 0, false, false⟩
    | none => cacheMissPath cbRes setOk
  | .error _ => cacheMissPath cbRes setOk

/-- The value a CacheWithCallback lookup would return as a hit: some only
when the GET found text that deserializes. -/
def hitLookup {α : Type} (getRes : Except GoErr String)
    (unmarshal : String → Option α) : Option α :=
  match getRes with
  | .ok s => unmarshal s
  | .error _ => none

/-- RateLimiterState of the spec (section 3): available tokens, the instant of
the last refill accounting, the capacity (burst) and the refill rate in
tokens per second.  Times are rationals in seconds. -/
structure RateLimiterState where
  tokens : Rat
  lastRefill : Rat
  capacity : Rat
  refillRate : Rat
deriving DecidableEq

/-- Modelled from the spec: the allow() of the token bucket that the
RateLimiter middleware (middleware.go lines 51-65) obtains from
golang.org/x/time/rate, whose source is not part of this repository.  Per
spec section 4.2: elapsed = now - lastRefill; newTokens = min(capacity,
tokens + elapsed * rate); if at least 1 token is available, consume one and
admit, else deny; either way the refill just computed is retained. -/
def rlAllow (st : RateLimiterState) (now : Rat) : Bool × RateLimiterState :=
  let elapsed := now - st.lastRefill
  let newTokens := min st.capacity (st.tokens + elapsed * st.refillRate)
  if 1 ≤ newTokens then
    (true, ⟨newTokens - 1, now, st.capacity, st.refillRate⟩)
  else
    (false, ⟨newTokens, now, st.capacity, st.refillRate⟩)

/-- A fresh bucket of capacity b and rate r, full at time 0, as
rate.NewLimiter produces for RateLimiter(requestsPerSecond, burstSize). -/
def rlNew (r b : Rat) : RateLimiterState := ⟨b, 0, b, r⟩

/-- The state of one Redis counter key: its integer value if the key
exists, and whether an expiry is set on it. -/
structure CounterEntry where
  value : Option Int
  hasExpiry : Bool
deriving DecidableEq

/-- The two Redis commands that IncrementCounter (redis wrapper lines
192-207) queues on a non-transactional pipeline. -/
inductive RedisCmd where
  | incr
  | expire (ttl : Int)
deriving DecidableEq

/-- One Redis command applied to a counter key, with its integer reply:
INCR creates an absent key at 0 (with no expiry) and increments it,
preserving any existing expiry; EXPIRE sets the expiry of an existing key
and is a no-op on an absent one. -/
def applyCmd (st : CounterEntry) : RedisCmd → CounterEntry × Int
  | .incr =>
    let newVal := st.value.getD 0 + 1
    (⟨some newVal, st.hasExpiry⟩, newVal)
  | .expire _ =>
    match st.value with
    | some v => (⟨some v, true⟩, 1)
    | none => (st, 0)

/-- A prefix of a command batch executed in order, as a Redis server
processes a pipelined batch: commands are delivered and run one by one, so
a connection failure mid-batch leaves exactly the commands before the
failure applied. -/
def applyCmds (st : CounterEntry) : List RedisCmd → CounterEntry
  | [] => st
  | c :: rest => applyCmds (applyCmd st c).1 rest

/-- IncrementCounter (redis wrapper lines 192-207): queues INCR then EXPIRE
on a Pipeline (a batched round-trip, not a MULTI/EXEC transaction) and
executes it.  crashAfter = some k models the pipeline execution failing
after the first k commands have run on the server: Exec returns an error
(wrapped as "failed to increment counter: %w" with the function returning
count 0) while the k executed commands keep their effects.  crashAfter =
none is the failure-free run, returning the INCR reply. -/
def incrementCounter (st : CounterEntry) (ttl : Int) (crashAfter : Option Nat) :
    Except GoErr Int × CounterEntry :=
  match crashAfter with
  | some k =>
    (.error (.wrap "failed to increment counter" (.msg "connection failure")),
     applyCmds st ([RedisCmd.incr, RedisCmd.expire ttl].take k))
  | none =>
    let r1 := applyCmd st .incr
    let r2 := applyCmd r1.1 (.expire ttl)
    (.ok r1.2, r2.1)

/-- A JSON field value in an update request body: the update surface only
carries string and boolean fields. -/
inductive FieldVal where
  | s (v : String)
  | b (v : Bool)
deriving DecidableEq

/-- UpdateUserRequest of the user service: the bound form of the request
body, with zero values for absent fields and a pointer (Option) for
is_active. -/
structure UpdateUserRequest where
  username : String
  email : String
  fullName : String
  isActive : Option Bool
deriving DecidableEq

/-- The string field a JSON body gives for a key, zero value when the key
is absent or not a string. -/
def lookupStr (body : List (String × FieldVal)) (k : String) : String :=
  match body.lookup k with
  | some (.s v) => v
  | _ => ""

/-- The boolean field a JSON body gives for a key, nil pointer (none) when
the key is absent or not a boolean. -/
def lookupBool (body : List (String × FieldVal)) (k : String) : Option Bool :=
  match body.lookup k with
  | some (.b v) => some v
  | _ => none

/-- ShouldBindJSON into UpdateUserRequest: only the four declared JSON keys
are read; every other key of the body is ignored.  The gin length/format
validators can only reject a request outright (no statement is built
then), never alter the bound fields, so they are not modelled. -/
def bindUpdateUserRequest (body : List (String × FieldVal)) : UpdateUserRequest :=
  ⟨lookupStr body "username", lookupStr body "email",
   lookupStr body "full_name", lookupBool body "is_active"⟩

/-- A value bound to a positional parameter of the update statement. -/
inductive DBValue where
  | s (v : String)
  | b (v : Bool)
  | t (ts : Int)
  | i (n : Int)
deriving DecidableEq

/-- UserService.UpdateUser (user service lines 282-316) up to the
repository call: the updates map it builds from the bound request, keyed
by the fixed column names username, email, full_name and is_active, or
the uniqueness-check failure it returns instead.  usernameExists and
emailExists are the repository check outcomes.  Go iterates this map in
unspecified order; the list fixes insertion order, and the properties
proved are order-insensitive. -/
def serviceBuildUpdates (usernameExists emailExists : Bool)
    (req : UpdateUserRequest) : Except GoErr (List (String × DBValue)) :=
  if req.username ≠ "" ∧ usernameExists = true then
    .error (.msg "username already exists")
  else if req.email ≠ "" ∧ emailExists = true then
    .error (.msg "email already exists")
  else
    .ok ((if req.username = "" then [] else [("username", DBValue.s req.username)]) ++
      (if req.email = "" then [] else [("email", DBValue.s req.email)]) ++
      (if req.fullName = "" then [] else [("full_name", DBValue.s req.fullName)]) ++
      (match req.isActive with
       | some bv => [("is_active", DBValue.b bv)]
       | none => []))

/-- A parameterized SQL statement: its text and its positional parameters. -/
structure SqlStmt where
  text : String
  params : List DBValue
deriving DecidableEq

/-- The joinStrings helper of the user service (its last lines). -/
def joinStrings (parts : List String) (separator : String) : String :=
  match parts with
  | [] => ""
  | p :: rest => rest.foldl (fun acc q => acc ++ separator ++ q) p

/-- The set-clause fragments "field = $i" with consecutive parameter
indices, as the loop of UserRepository.UpdateUser builds them. -/
def numberParts : List String → Nat → List String
  | [], _ => []
  | f :: rest, i => (f ++ " = $" ++ toString i) :: numberParts rest (i + 1)

/-- UserRepository.UpdateUser (user service lines 123-163) up to the Exec
call: rejects an empty update set, then builds the statement text from the
update keys plus the trailing updated_at = now assignment and the WHERE
id placeholder, with all values passed positionally. -/
def repoUpdateUser (id : Int) (updates : List (String × DBValue)) (now : Int) :
    Except GoErr SqlStmt :=
  if updates = [] then .error (.msg "no fields to update")
  else
    let setParts := numberParts (updates.map Prod.fst) 1 ++
      ["updated_at = $" ++ toString (updates.length + 1)]
    let args := updates.map Prod.snd ++ [DBValue.t now]
    .ok ⟨"UPDATE users SET " ++ joinStrings setParts ", " ++
          " WHERE id = $" ++ toString (updates.length + 2),
         args ++ [DBValue.i id]⟩

/-- The full update path: bind the body, apply the service checks and
field filtering, build the repository statement. -/
def updateUserPipeline (usernameExists emailExists : Bool)
    (body : List (String × FieldVal)) (id now : Int) : Except GoErr SqlStmt :=
  match serviceBuildUpdates usernameExists emailExists (bindUpdateUserRequest body) with
  | .error e => .error e
  | .ok ups => repoUpdateUser id ups now

/-- The allow-listed columns a bound request contributes, in insertion
order. -/
def presentColumns (req : UpdateUserRequest) : List String :=
  (if req.username = "" then [] else ["username"]) ++
  (if req.email = "" then [] else ["email"]) ++
  (if req.fullName = "" then [] else ["full_name"]) ++
  (match req.isActive with
   | some _ => ["is_active"]
   | none => [])

/-- Statement template written from the spec wording: the statement text a
safe builder may produce is a function of column names alone (the
allow-listed columns plus the system updated_at column), never of the
caller-supplied values, which bind only to positional parameters. -/
def specTemplate (cols : List String) : String :=
  "UPDATE users SET " ++
    joinStrings (numberParts cols 1 ++
      ["updated_at = $" ++ toString (cols.length + 1)]) ", " ++
    " WHERE id = $" ++ toString (cols.length + 2)

/-- C1: validating a token produced by GenerateToken, while its expires-at
is still after the current time, succeeds and returns claims whose user
id, username, email, role, issuer and subject are those given at issue
time. -/
theorem generateToken_validateToken_roundtrip
    (secret issuer uid un em rl : String) (ttl now : Int)
    (h : now < now + ttl) :
    ValidateToken ⟨secret, issuer⟩
        (GenerateToken ⟨secret, issuer⟩ uid un em rl ttl now) now
      = .ok ⟨uid, un, em, rl, now + ttl, now, now, issuer, uid⟩ := by
  have h1 : ¬ (now > now + ttl) := by omega
  have h2 : ¬ (now < now) := by omega
  simp [ValidateToken, GenerateToken, libParse, h1, h2]

/-- C1 witness: a concrete issue-then-validate round trip. -/
theorem generateToken_validateToken_roundtrip_witness :
    (0 : Int) < 0 + 60 ∧
    ValidateToken ⟨"k", "iss"⟩
        (GenerateToken ⟨"k", "iss"⟩ "u1" "alice" "a@x" "admin" 60 0) 0
      = .ok ⟨"u1", "alice", "a@x", "admin", 0 + 60, 0, 0, "iss", "u1"⟩ :=
  ⟨by decide,
   generateToken_validateToken_roundtrip "k" "iss" "u1" "alice" "a@x" "admin" 60 0
     (by decide)⟩

/-- C8 counterexample: RefreshToken does not propagate the validation
failure unchanged; it wraps it with the context "invalid token for
refresh", so the error refresh returns differs from the error validation
returned. -/
theorem refreshToken_wraps_validation_error_cex :
    ValidateToken ⟨"k", "iss"⟩ (Token.malformed "garbage") 0
      = .error (GoErr.wrap "failed to parse token"
          (.msg "token contains an invalid number of segments")) ∧
    RefreshToken ⟨"k", "iss"⟩ (Token.malformed "garbage") 7 0
      = .error (GoErr.wrap "invalid token for refresh"
          (GoErr.wrap "failed to parse token"
            (.msg "token contains an invalid number of segments"))) ∧
    GoErr.wrap "invalid token for refresh"
        (GoErr.wrap "failed to parse token"
          (.msg "token contains an invalid number of segments"))
      ≠ GoErr.wrap "failed to parse token"
          (.msg "token contains an invalid number of segments") := by
  refine ⟨rfl, rfl, ?_⟩
  decide

/-- C8 amended: a validation failure propagates wrapped with the context
"invalid token for refresh"; on successful validation, refresh returns a
new token signed with the manager secret carrying the same user id,
username, email and role, subject = user id, the manager issuer, and
freshly computed issued-at, not-before and expires-at = now + ttl (the
old token value is not mutated: refresh is a pure function of it). -/
theorem refreshToken_contract (j : JWTManager) (tok : Token) (ttl now : Int) :
    (∀ e, ValidateToken j tok now = .error e →
        RefreshToken j tok ttl now = .error (.wrap "invalid token for refresh" e)) ∧
    (∀ c, ValidateToken j tok now = .ok c →
        RefreshToken j tok ttl now
          = .ok (Token.signed
              ⟨c.userID, c.username, c.email, c.role,
               now + ttl, now, now, j.issuer, c.userID⟩
              j.secretKey true)) := by
  constructor
  · intro e he
    simp [RefreshToken, he]
  · intro c hc
    simp [RefreshToken, hc, GenerateToken]

/-- C8 witness: the amended contract at a concrete valid token. -/
theorem refreshToken_contract_witness :
    ValidateToken ⟨"k", "iss"⟩ (Token.signed ⟨"u", "n", "e", "r", 50, 0, 0, "iss", "u"⟩ "k" true) 3
      = .ok ⟨"u", "n", "e", "r", 50, 0, 0, "iss", "u"⟩ ∧
    RefreshToken ⟨"k", "iss"⟩ (Token.signed ⟨"u", "n", "e", "r", 50, 0, 0, "iss", "u"⟩ "k" true) 99 3
      = .ok (Token.signed ⟨"u", "n", "e", "r", 3 + 99, 3, 3, "iss", "u"⟩ "k" true) :=
  ⟨rfl,
   (refreshToken_contract ⟨"k", "iss"⟩
      (Token.signed ⟨"u", "n", "e", "r", 50, 0, 0, "iss", "u"⟩ "k" true) 99 3).2
     ⟨"u", "n", "e", "r", 50, 0, 0, "iss", "u"⟩ rfl⟩

/-- C9 counterexample: a correctly signed token whose expires-at equals the
current instant validates successfully (Expired means now strictly after
expires-at), yet IsTokenExpired reports it NOT expired, because the source
uses the strict comparison ExpiresAt.Before(now); the claim says such a
token is reported as expired. -/
theorem isTokenExpired_boundary_cex :
    ValidateToken ⟨"s", "iss"⟩ (Token.signed ⟨"u", "n", "e", "r", 5, 0, 0, "iss", "u"⟩ "s" true) 5
      = .ok ⟨"u", "n", "e", "r", 5, 0, 0, "iss", "u"⟩ ∧
    IsTokenExpired ⟨"s", "iss"⟩ (Token.signed ⟨"u", "n", "e", "r", 5, 0, 0, "iss", "u"⟩ "s" true) 5
      = false :=
  ⟨rfl, rfl⟩

/-- C9 amended: IsTokenExpired returns true exactly when validation fails
(with any failure, fail-safe) or validation succeeds with expires-at
strictly before the current time; a validated token whose expires-at
equals the current instant is reported as not expired. -/
theorem isTokenExpired_characterization (j : JWTManager) (tok : Token) (now : Int) :
    IsTokenExpired j tok now = true ↔
      (∃ e, ValidateToken j tok now = .error e) ∨
      (∃ c, ValidateToken j tok now = .ok c ∧ c.expiresAt < now) := by
  cases hv : ValidateToken j tok now with
  | error e => simp [IsTokenExpired, hv]
  | ok c => simp [IsTokenExpired, hv]

/-- C3 counterexample: on a backend where the key is absent (redis.Nil),
Get returns an error outcome, so an absent key IS reported as an error,
contrary to the claim that a miss is a non-error signal. -/
theorem redisGet_missing_key_is_error_cex :
    redisGet (fun _ => RedisReply.nilReply) "k"
      = .error (.msg ("key not found: " ++ "k")) := rfl

/-- C3 amended: Get reports an absent key as an error, but one with a
distinct shape — the plain message "key not found: <key>" — while a failed
lookup is reported as the wrapped error "failed to get value: %w", and the
two error values are never equal, so callers can still tell absence from
failure by inspecting the error. -/
theorem redisGet_miss_distinct_error (backend : String → RedisReply) (key : String) :
    (backend key = .nilReply →
        redisGet backend key = .error (.msg ("key not found: " ++ key))) ∧
    (∀ m, backend key = .failure m →
        redisGet backend key = .error (.wrap "failed to get value" (.msg m))) ∧
    (∀ m, GoErr.msg ("key not found: " ++ key)
        ≠ GoErr.wrap "failed to get value" (.msg m)) := by
  refine ⟨?_, ?_, ?_⟩
  · intro h
    simp [redisGet, h]
  · intro m h
    simp [redisGet, h]
  · intro m h
    exact GoErr.noConfusion h

/-- C3 witness: the amended statement at a concrete absent key. -/
theorem redisGet_miss_distinct_error_witness :
    (fun (_ : String) => RedisReply.nilReply) "k" = RedisReply.nilReply ∧
    redisGet (fun _ => RedisReply.nilReply) "k"
      = .error (.msg ("key not found: " ++ "k")) :=
  ⟨rfl, (redisGet_miss_distinct_error (fun _ => RedisReply.nilReply) "k").1 rfl⟩

/-- C6: on a miss, CacheWithCallback invokes the callback exactly once; a
callback failure is propagated unchanged and no cache write is attempted;
a callback success is returned to the caller even when the subsequent
cache write fails. -/
theorem cacheWithCallback_miss_contract {α : Type}
    (getRes : Except GoErr String) (unmarshal : String → Option α)
    (cbRes : Except GoErr α) (setOk : Bool)
    (hmiss : hitLookup getRes unmarshal = none) :
    (cacheWithCallback getRes unmarshal cbRes setOk).callbackCalls = 1 ∧
    (∀ e, cbRes = .error e →
        (cacheWithCallback getRes unmarshal cbRes setOk).result = .error e ∧
        (cacheWithCallback getRes unmarshal cbRes setOk).setAttempted = false) ∧
    (∀ d, cbRes = .ok d →
        (cacheWithCallback getRes unmarshal cbRes setOk).result = .ok d) := by
  have hpath : cacheWithCallback getRes unmarshal cbRes setOk
      = cacheMissPath cbRes setOk := by
    cases getRes with
    | error e => rfl
    | ok s =>
      have hs : unmarshal s = none := by simpa [hitLookup] using hmiss
      simp [cacheWithCallback, hs]
  refine ⟨?_, ?_, ?_⟩
  · cases cbRes <;> simp [hpath, cacheMissPath]
  · intro e he
    subst he
    simp [hpath, cacheMissPath]
  · intro d hd
    subst hd
    simp [hpath, cacheMissPath]

/-- C6 witness: a miss where the cache write then fails, yet the computed
value is returned and the callback ran once. -/
theorem cacheWithCallback_miss_contract_witness :
    hitLookup (Except.error (GoErr.msg ("key not found: " ++ "k")))
        (fun (_ : String) => (none : Option Nat)) = none ∧
    (cacheWithCallback (Except.error (GoErr.msg ("key not found: " ++ "k")))
        (fun (_ : String) => (none : Option Nat)) (.ok 42) false).callbackCalls = 1 :=
  ⟨rfl,
   (cacheWithCallback_miss_contract
      (Except.error (GoErr.msg ("key not found: " ++ "k")))
      (fun _ => (none : Option Nat)) (.ok 42) false rfl).1⟩

/-- C10: storing a raw Go string that does not deserialize as JSON makes
every later CacheWithCallback on that key a miss: the callback runs once
and its outcome, not the cached text, is what the caller receives; and in
general any lookup that yields no deserialized value (absent key, backend
failure, undecodable text) takes the miss path rather than failing the
call. -/
theorem rawString_cache_roundtrip_misses {α : Type}
    (marshalJson : α → String) (unmarshal : String → Option α)
    (store : List (String × String)) (key s : String)
    (cbRes : Except GoErr α) (setOk : Bool)
    (hs : unmarshal s = none) :
    (cacheWithCallback
        (redisGet (backendOf (setWithExpiration marshalJson store key (.str s))) key)
        unmarshal cbRes setOk).callbackCalls = 1 ∧
    (∀ d, cbRes = .ok d →
        (cacheWithCallback
            (redisGet (backendOf (setWithExpiration marshalJson store key (.str s))) key)
            unmarshal cbRes setOk).result = .ok d) ∧
    (∀ e, cbRes = .error e →
        (cacheWithCallback
            (redisGet (backendOf (setWithExpiration marshalJson store key (.str s))) key)
            unmarshal cbRes setOk).result = .error e) ∧
    (∀ getRes : Except GoErr String, hitLookup getRes unmarshal = none →
        (cacheWithCallback getRes unmarshal cbRes setOk).callbackCalls = 1) := by
  have hget : redisGet (backendOf (setWithExpiration marshalJson store key (.str s))) key
      = .ok s := by
    simp [redisGet, backendOf, setWithExpiration, List.lookup]
  have hpath : cacheWithCallback
        (redisGet (backendOf (setWithExpiration marshalJson store key (.str s))) key)
        unmarshal cbRes setOk
      = cacheMissPath cbRes setOk := by
    simp [hget, cacheWithCallback, hs]
  refine ⟨?_, ?_, ?_, ?_⟩
  · cases cbRes <;> simp [hpath, cacheMissPath]
  · intro d hd
    subst hd
    simp [hpath, cacheMissPath]
  · intro e he
    subst he
    simp [hpath, cacheMissPath]
  · intro getRes hg
    have hp2 : cacheWithCallback getRes unmarshal cbRes setOk
        = cacheMissPath cbRes setOk := by
      cases getRes with
      | error e => rfl
      | ok t =>
        have ht : unmarshal t = none := by simpa [hitLookup] using hg
        simp [cacheWithCallback, ht]
    cases cbRes <;> simp [hp2, cacheMissPath]

/-- C10 witness: the raw string "hello" (not valid JSON) is stored and the
next lookup calls the callback. -/
theorem rawString_cache_roundtrip_misses_witness :
    (fun (_ : String) => (none : Option Nat)) "hello" = none ∧
    (cacheWithCallback
        (redisGet (backendOf (setWithExpiration (fun (_ : Nat) => "0") [] "k" (.str "hello"))) "k")
        (fun _ => (none : Option Nat)) (.ok 7) true).callbackCalls = 1 :=
  ⟨rfl,
   (rawString_cache_roundtrip_misses (fun _ => "0")
      (fun _ => (none : Option Nat)) [] "k" "hello" (.ok 7) true rfl).1⟩

/-- C5: a bucket with capacity 2 and rate 2 tokens/second, full at time 0,
admits two calls at instant 0, denies the third at that instant, admits
exactly one further call at instant 0.5 seconds, and denies a second call
at that same instant. -/
theorem rateLimiter_capacity2_rate2_scenario :
    (rlAllow (rlNew 2 2) 0).1 = true ∧
    (rlAllow (rlAllow (rlNew 2 2) 0).2 0).1 = true ∧
    (rlAllow (rlAllow (rlAllow (rlNew 2 2) 0).2 0).2 0).1 = false ∧
    (rlAllow (rlAllow (rlAllow (rlAllow (rlNew 2 2) 0).2 0).2 0).2 (1/2)).1 = true ∧
    (rlAllow (rlAllow (rlAllow (rlAllow (rlAllow (rlNew 2 2) 0).2 0).2 0).2 (1/2)).2 (1/2)).1
      = false := by
  norm_num [rlAllow, rlNew, min_def]

/-- C7: the failure-free runs of IncrementCounter on a fresh key return
1, 2, 3, 4, 5 in order with the expiry set — but the increment and the
expiry assignment are NOT one atomic unit: the pipeline failing between
the two commands (crash after the first of the batch) reaches a post-state
where the counter exists, incremented to 1, with no expiry set, which the
claim requires to be unreachable. -/
theorem incrementCounter_pipeline_not_atomic :
    (incrementCounter ⟨none, false⟩ 10 (some 1)).2 = ⟨some 1, false⟩ ∧
    (incrementCounter ⟨none, false⟩ 10 none).1 = .ok 1 ∧
    (incrementCounter (incrementCounter ⟨none, false⟩ 10 none).2 10 none).1 = .ok 2 ∧
    (incrementCounter (incrementCounter (incrementCounter ⟨none, false⟩ 10 none).2
        10 none).2 10 none).1 = .ok 3 ∧
    (incrementCounter (incrementCounter (incrementCounter
        (incrementCounter ⟨none, false⟩ 10 none).2 10 none).2 10 none).2 10 none).1
      = .ok 4 ∧
    (incrementCounter (incrementCounter (incrementCounter (incrementCounter
        (incrementCounter ⟨none, false⟩ 10 none).2 10 none).2 10 none).2 10 none).2
        10 none).1 = .ok 5 ∧
    (incrementCounter (incrementCounter (incrementCounter (incrementCounter
        (incrementCounter ⟨none, false⟩ 10 none).2 10 none).2 10 none).2 10 none).2
        10 none).2.hasExpiry = true := by
  refine ⟨rfl, rfl, rfl, rfl, rfl, rfl, rfl⟩

/-- When the service checks pass, the columns of the updates map are
exactly the present allow-listed columns of the bound request. -/
theorem serviceBuildUpdates_columns (ue ee : Bool) (req : UpdateUserRequest)
    (ups : List (String × DBValue))
    (h : serviceBuildUpdates ue ee req = .ok ups) :
    ups.map Prod.fst = presentColumns req := by
  unfold serviceBuildUpdates at h
  split at h
  · simp at h
  · split at h
    · simp at h
    · injection h with h
      subst h
      cases hA : req.isActive <;>
        by_cases h1 : req.username = "" <;>
        by_cases h2 : req.email = "" <;>
        by_cases h3 : req.fullName = "" <;>
        simp [presentColumns, h1, h2, h3, hA]

/-- Every column a bound request can contribute is one of the four
allow-listed mutable columns. -/
theorem presentColumns_mem (req : UpdateUserRequest) :
    ∀ c ∈ presentColumns req,
      c = "username" ∨ c = "email" ∨ c = "full_name" ∨ c = "is_active" := by
  intro c hc
  cases hA : req.isActive <;>
    by_cases h1 : req.username = "" <;>
    by_cases h2 : req.email = "" <;>
    by_cases h3 : req.fullName = "" <;>
    simp [presentColumns, h1, h2, h3, hA] at hc <;>
    tauto

/-- Binding ignores the caller-supplied "role" field entirely. -/
theorem bindUpdateUserRequest_ignores_role (body : List (String × FieldVal))
    (v : FieldVal) :
    bindUpdateUserRequest (("role", v) :: body) = bindUpdateUserRequest body := by
  have h1 : ("username" == "role") = false := rfl
  have h2 : ("email" == "role") = false := rfl
  have h3 : ("full_name" == "role") = false := rfl
  have h4 : ("is_active" == "role") = false := rfl
  simp [bindUpdateUserRequest, lookupStr, lookupBool, List.lookup, h1, h2, h3, h4]

/-- C2: whenever the update path emits a statement, its text is the
template determined by the present allow-listed column names alone (so no
caller-supplied value reaches the text: values bind positionally), every
column it touches besides the system updated_at column is allow-listed,
and a "role" field in the request body is silently ignored. -/
theorem updateUser_statement_allowlist (ue ee : Bool)
    (body : List (String × FieldVal)) (id now : Int) (stmt : SqlStmt)
    (h : updateUserPipeline ue ee body id now = .ok stmt) :
    stmt.text = specTemplate (presentColumns (bindUpdateUserRequest body)) ∧
    (∀ c ∈ presentColumns (bindUpdateUserRequest body),
        c = "username" ∨ c = "email" ∨ c = "full_name" ∨ c = "is_active") ∧
    "role" ∉ presentColumns (bindUpdateUserRequest body) ∧
    (∀ v, bindUpdateUserRequest (("role", v) :: body) = bindUpdateUserRequest body) := by
  refine ⟨?_, presentColumns_mem _, ?_, fun v => bindUpdateUserRequest_ignores_role body v⟩
  · unfold updateUserPipeline at h
    cases hs : serviceBuildUpdates ue ee (bindUpdateUserRequest body) with
    | error e =>
      rw [hs] at h
      simp at h
    | ok ups =>
      rw [hs] at h
      have hcols := serviceBuildUpdates_columns ue ee (bindUpdateUserRequest body) ups hs
      rw [← hcols]
      have h2 : repoUpdateUser id ups now = .ok stmt := h
      unfold repoUpdateUser at h2
      split at h2
      · simp at h2
      · injection h2 with h2
        subst h2
        simp [specTemplate, List.length_map]
  · intro hmem
    rcases presentColumns_mem (bindUpdateUserRequest body) _ hmem with hr | hr | hr | hr <;>
      revert hr <;> decide

/-- C2 witness: the spec scenario — body with full_name "Ann" and role
"admin" against the builder yields a statement touching only full_name
and updated_at; role is dropped. -/
theorem updateUser_statement_allowlist_witness :
    updateUserPipeline false false
        [("full_name", FieldVal.s "Ann"), ("role", FieldVal.s "admin")] 7 0
      = .ok ⟨"UPDATE users SET full_name = $1, updated_at = $2 WHERE id = $3",
             [DBValue.s "Ann", DBValue.t 0, DBValue.i 7]⟩ ∧
    (SqlStmt.mk "UPDATE users SET full_name = $1, updated_at = $2 WHERE id = $3"
        [DBValue.s "Ann", DBValue.t 0, DBValue.i 7]).text
      = specTemplate (presentColumns (bindUpdateUserRequest
          [("full_name", FieldVal.s "Ann"), ("role", FieldVal.s "admin")])) :=
  ⟨rfl,
   (updateUser_statement_allowlist false false
      [("full_name", FieldVal.s "Ann"), ("role", FieldVal.s "admin")] 7 0
      (SqlStmt.mk "UPDATE users SET full_name = $1, updated_at = $2 WHERE id = $3"
        [DBValue.s "Ann", DBValue.t 0, DBValue.i 7]) rfl).1⟩
